import Mathlib

/-!
Shallow embedding of the validation layer of the lamha-assignment repository
(src/utils/validation.ts): six pure validators returning a ValidationResult.
Strings are modelled as Lean strings (sequences of Unicode scalar values);
string length is the number of those characters.  The invoice-number
validator is embedded from the canonical revision of validation.ts (the one
exercised by the repository's test suite), which enforces the strict
SA-digits format.
-/

/-- Embedding of the ValidationResult interface: an isValid flag and an
optional error message. -/
structure ValidationResult where
  isValid : Bool
  error : Option String
deriving DecidableEq, Repr

/-- The JavaScript whitespace class: the characters matched by the regex
class \s, removed by String.prototype.trim, and skipped by parseFloat
(WhiteSpace plus LineTerminator in ECMA-262). -/
def isJSWhitespace (c : Char) : Bool :=
  c.val = 0x9 || c.val = 0xa || c.val = 0xb || c.val = 0xc || c.val = 0xd ||
  c.val = 0x20 || c.val = 0xa0 || c.val = 0x1680 ||
  (0x2000 ≤ c.val && c.val ≤ 0x200a) ||
  c.val = 0x2028 || c.val = 0x2029 || c.val = 0x202f || c.val = 0x205f ||
  c.val = 0x3000 || c.val = 0xfeff

/-- Embedding of String.prototype.trim: drop JS whitespace from both ends. -/
def jsTrim (s : String) : String :=
  ⟨((s.data.dropWhile isJSWhitespace).reverse.dropWhile isJSWhitespace).reverse⟩

/-- Embedding of validateSearchQuery from validation.ts: length cap of 100,
then rejection of the characters matched by the regex class [<>]. -/
def validateSearchQuery (query : String) : ValidationResult :=
  if query.length > 100 then
    ⟨false, some "Search query is too long (max 100 characters)"⟩
  else if query.data.any (fun c => c == '<' || c == '>') then
    ⟨false, some "Search query contains invalid characters"⟩
  else
    ⟨true, none⟩

/-- Embedding of String.prototype.toLowerCase restricted to ASCII letters,
the only characters whose lowercase forms occur in the status literals the
result is compared against. -/
def toLowerAscii (s : String) : String :=
  ⟨s.data.map (fun c => if c.val ≥ 65 && c.val ≤ 90 then Char.ofNat (c.toNat + 32) else c)⟩

/-- Embedding of validateStatus from validation.ts: case-insensitive
membership in the list of valid statuses. -/
def validateStatus (status : String) : ValidationResult :=
  if ¬ (["", "pending", "approved"].contains (toLowerAscii status)) then
    ⟨false, some "Invalid status selected"⟩
  else
    ⟨true, none⟩

/-- Embedding of the regex test of validateInvoiceNumber: the pattern
matching exactly the character S, then A, then a dash, then one or more
decimal digits. -/
def isInvoiceFormat (s : String) : Bool :=
  match s.data with
  | 'S' :: 'A' :: '-' :: rest => rest ≠ [] && rest.all Char.isDigit
  | _ => false

/-- Embedding of validateInvoiceNumber from the canonical revision of
validation.ts: required, then length cap of 50, then the strict
SA-digits format test. -/
def validateInvoiceNumber (invoiceNumber : String) : ValidationResult :=
  if invoiceNumber = "" ∨ jsTrim invoiceNumber = "" then
    ⟨false, some "Invoice number is required"⟩
  else if invoiceNumber.length > 50 then
    ⟨false, some "Invoice number is too long (max 50 characters)"⟩
  else if ¬ isInvoiceFormat invoiceNumber then
    ⟨false, some "Invoice number must follow the format SA-\x7bnumbers\x7d (e.g., SA-12345)"⟩
  else
    ⟨true, none⟩

/-- Embedding of validateVendorName from validation.ts: required, then a
minimum length of 2, then a maximum length of 100. -/
def validateVendorName (vendor : String) : ValidationResult :=
  if vendor = "" ∨ jsTrim vendor = "" then
    ⟨false, some "Vendor name is required"⟩
  else if vendor.length < 2 then
    ⟨false, some "Vendor name is too short (min 2 characters)"⟩
  else if vendor.length > 100 then
    ⟨false, some "Vendor name is too long (max 100 characters)"⟩
  else
    ⟨true, none⟩

/-- A calendar date, the value a JavaScript Date holds after parsing a
date-only ISO string (UTC midnight of that day). -/
structure SimpleDate where
  year : Nat
  month : Nat
  day : Nat
deriving DecidableEq, Repr

/-- Gregorian leap-year rule, as used by the JavaScript Date object. -/
def isLeapYear (y : Nat) : Bool :=
  (y % 4 = 0 && y % 100 ≠ 0) || y % 400 = 0

/-- Number of days of a month in the Gregorian calendar. -/
def daysInMonth (y m : Nat) : Nat :=
  if m = 2 then (if isLeapYear y then 29 else 28)
  else if m = 4 ∨ m = 6 ∨ m = 9 ∨ m = 11 then 30
  else 31

/-- Matcher for one occurrence of the regex fragment of validateDateRange
that captures a date: four digits, a dash, two digits, a dash, two digits.
Returns the ten matched characters and the remaining input. -/
def matchIsoDate : List Char → Option (List Char × List Char)
  | y1 :: y2 :: y3 :: y4 :: '-' :: m1 :: m2 :: '-' :: d1 :: d2 :: rest =>
    if y1.isDigit && y2.isDigit && y3.isDigit && y4.isDigit &&
       m1.isDigit && m2.isDigit && d1.isDigit && d2.isDigit then
      some ([y1, y2, y3, y4, '-', m1, m2, '-', d1, d2], rest)
    else none
  | _ => none

/-- Matcher for the whole anchored regex of validateDateRange: a captured
date, any amount of whitespace, a dash, any amount of whitespace, a second
captured date, end of input.  The starred whitespace classes are
deterministic here because no whitespace character is a dash or a digit,
so greedy consumption is the only possible match. -/
def matchDateRange (range : String) : Option (String × String) :=
  match matchIsoDate range.data with
  | none => none
  | some (s1, rest) =>
    match rest.dropWhile isJSWhitespace with
    | '-' :: rest2 =>
      match matchIsoDate (rest2.dropWhile isJSWhitespace) with
      | none => none
      | some (s2, rest3) => if rest3 = [] then some (⟨s1⟩, ⟨s2⟩) else none
    | _ => none

/-- Numeric value of a decimal digit character. -/
def d2n (c : Char) : Nat := c.toNat - 48

/-- Embedding of the JavaScript expression new Date(s) applied to the
strings captured by the date regex, keeping only whether the result is a
valid date (not NaN) and, when valid, its calendar components: a captured
string yields a valid Date exactly when its month is 1..12 and its day is
1..daysInMonth (the V8 ISO date-only parser rejects out-of-range
components). -/
def parseIsoDate (s : String) : Option SimpleDate :=
  match s.data with
  | [y1, y2, y3, y4, '-', m1, m2, '-', d1, d2] =>
    if y1.isDigit && y2.isDigit && y3.isDigit && y4.isDigit &&
       m1.isDigit && m2.isDigit && d1.isDigit && d2.isDigit then
      let y := 1000 * d2n y1 + 100 * d2n y2 + 10 * d2n y3 + d2n y4
      let m := 10 * d2n m1 + d2n m2
      let d := 10 * d2n d1 + d2n d2
      if 1 ≤ m ∧ m ≤ 12 ∧ 1 ≤ d ∧ d ≤ daysInMonth y m then
        some ⟨y, m, d⟩
      else none
    else none
  | _ => none

/-- Strict order on calendar dates.  Date-only ISO strings parse to UTC
midnight, so the Date timestamp comparison of the source is exactly the
lexicographic order on (year, month, day). -/
def dateLt (a b : SimpleDate) : Bool :=
  if a.year < b.year then true
  else if b.year < a.year then false
  else if a.month < b.month then true
  else if b.month < a.month then false
  else if a.day < b.day then true
  else false

/-- Embedding of validateDateRange from validation.ts.  The wall-clock
sample new Date() is injected as the explicit parameter now, at date
granularity: end > now holds in the source exactly when the end date is a
later calendar day than the day of the sample, because end is a UTC
midnight and now lies in [midnight, next midnight) of its own day. -/
def validateDateRange (range : String) (now : SimpleDate) : ValidationResult :=
  if range = "" then ⟨true, none⟩
  else
    match matchDateRange range with
    | none => ⟨false, some "Invalid date format. Use: YYYY-MM-DD - YYYY-MM-DD"⟩
    | some (startStr, endStr) =>
      match parseIsoDate startStr, parseIsoDate endStr with
      | some startD, some endD =>
        if dateLt endD startD then
          ⟨false, some "Start date must be before end date"⟩
        else if dateLt now endD then
          ⟨false, some "End date cannot be in the future"⟩
        else ⟨true, none⟩
      | _, _ => ⟨false, some "Invalid dates provided"⟩

/-- A JavaScript number as far as validateAmount observes it: NaN, one of
the two infinities, or a finite value.  Finite values are modelled as exact
rationals; IEEE-754 rounding is not modelled. -/
inductive JSNumber where
  | nan
  | posInf
  | negInf
  | finite (q : ℚ)
deriving DecidableEq, Repr

/-- The JavaScript isNaN test on a number. -/
def JSNumber.isNaN : JSNumber → Bool
  | .nan => true
  | _ => false

/-- The JavaScript strict less-than comparison on numbers: any comparison
involving NaN is false. -/
def JSNumber.lt : JSNumber → JSNumber → Bool
  | .nan, _ => false
  | _, .nan => false
  | .negInf, .negInf => false
  | .negInf, _ => true
  | _, .negInf => false
  | .posInf, _ => false
  | .finite _, .posInf => true
  | .finite a, .finite b => decide (a < b)

/-- Value of a list of decimal digit characters read in base ten. -/
def digitsToNat (l : List Char) : Nat :=
  l.foldl (fun a c => 10 * a + (c.toNat - 48)) 0

/-- Syntactic shape of the longest numeric prefix parseFloat reads: no
prefix at all, the keyword Infinity with its sign, or a finite literal
given by its sign, integer digits, fraction digits and exponent. -/
inductive FloatToken where
  | nan
  | inf (neg : Bool)
  | fin (neg : Bool) (ip fp : List Char) (e : Int)
deriving DecidableEq, Repr

/-- Scanner part of the JavaScript parseFloat function: skip leading
whitespace, then read the longest prefix that is a signed decimal literal
(digits, an optional dot with further digits, an optional exponent whose
digits may be absent, in which case the exponent is not consumed) or the
keyword Infinity; if no digits are found the result is no-prefix. -/
def scanFloat (s : String) : FloatToken :=
  let l0 := s.data.dropWhile isJSWhitespace
  let signRest : Bool × List Char :=
    match l0 with
    | '+' :: r => (false, r)
    | '-' :: r => (true, r)
    | r => (false, r)
  let neg := signRest.1
  let l1 := signRest.2
  if l1.take 8 = ['I', 'n', 'f', 'i', 'n', 'i', 't', 'y'] then
    .inf neg
  else
    let ip := l1.takeWhile Char.isDigit
    let l2 := l1.dropWhile Char.isDigit
    let fpRest : List Char × List Char :=
      match l2 with
      | '.' :: r => (r.takeWhile Char.isDigit, r.dropWhile Char.isDigit)
      | r => ([], r)
    let fp := fpRest.1
    let l3 := fpRest.2
    if ip = [] ∧ fp = [] then .nan
    else
      let e : Int :=
        match l3 with
        | 'e' :: r | 'E' :: r =>
          let esignRest : Bool × List Char :=
            match r with
            | '+' :: t => (false, t)
            | '-' :: t => (true, t)
            | t => (false, t)
          let ed := esignRest.2.takeWhile Char.isDigit
          if ed = [] then 0
          else if esignRest.1 then -(digitsToNat ed : Int) else (digitsToNat ed : Int)
        | _ => 0
      .fin neg ip fp e

/-- Numeric value of a scanned token, as a JavaScript number.  The decimal
literal neg ip.fp e denotes (-1)^neg * (ip ++ fp) * 10^(e - length fp). -/
def tokenValue : FloatToken → JSNumber
  | .nan => .nan
  | .inf neg => if neg then .negInf else .posInf
  | .fin neg ip fp e =>
    let mantissa : ℚ := (digitsToNat (ip ++ fp) : ℚ) / ((10 ^ fp.length : Nat) : ℚ)
    let scaled : ℚ :=
      if 0 ≤ e then mantissa * ((10 ^ e.toNat : Nat) : ℚ)
      else mantissa / ((10 ^ (-e).toNat : Nat) : ℚ)
    .finite (if neg then -scaled else scaled)

/-- Embedding of the JavaScript parseFloat function, the composition of the
scanner and the valuation.  Finite values are exact rationals; IEEE-754
rounding of the decimal literal is not modelled. -/
def jsParseFloat (s : String) : JSNumber :=
  tokenValue (scanFloat s)

/-- The string-or-number union type of validateAmount's parameter. -/
inductive AmountInput where
  | str (s : String)
  | num (x : JSNumber)

/-- Embedding of validateAmount from validation.ts: strings go through
parseFloat, then a NaN check, then the two range checks. -/
def validateAmount (amount : AmountInput) : ValidationResult :=
  let numAmount :=
    match amount with
    | .str s => jsParseFloat s
    | .num x => x
  if numAmount.isNaN then
    ⟨false, some "Amount must be a valid number"⟩
  else if numAmount.lt (.finite 0) then
    ⟨false, some "Amount cannot be negative"⟩
  else if (JSNumber.finite 1000000).lt numAmount then
    ⟨false, some "Amount exceeds maximum limit (1,000,000)"⟩
  else
    ⟨true, none⟩

/-- Well-formedness contract of a ValidationResult: the error is present
exactly when the result is invalid, and a present error is non-empty. -/
def resultWF (r : ValidationResult) : Prop :=
  (r.error.isSome = true ↔ r.isValid = false) ∧ ∀ e, r.error = some e → e ≠ ""

/-- Declarative reading of the date fragment of the pattern in the claim:
four digits, a dash, two digits, a dash, two digits. -/
def isIsoDateChars (l : List Char) : Prop :=
  ∃ y1 y2 y3 y4 m1 m2 d1 d2 : Char,
    l = [y1, y2, y3, y4, '-', m1, m2, '-', d1, d2] ∧
    (y1.isDigit = true ∧ y2.isDigit = true ∧ y3.isDigit = true ∧ y4.isDigit = true ∧
     m1.isDigit = true ∧ m2.isDigit = true ∧ d1.isDigit = true ∧ d2.isDigit = true)

/-- Declarative reading of the whole textual pattern in the claim: a date,
optional whitespace, a dash, optional whitespace, a second date, and
nothing else. -/
def isoRangeShape (r : String) : Prop :=
  ∃ a ws1 ws2 b : List Char,
    r.data = a ++ ws1 ++ '-' :: (ws2 ++ b) ∧
    isIsoDateChars a ∧ isIsoDateChars b ∧
    (∀ c ∈ ws1, isJSWhitespace c = true) ∧ (∀ c ∈ ws2, isJSWhitespace c = true)

example : validateSearchQuery "" = ⟨true, none⟩ := by decide
example : validateSearchQuery "script<b>" = ⟨false, some "Search query contains invalid characters"⟩ := by decide
example : validateStatus "APPROVED" = ⟨true, none⟩ := by decide
example : validateStatus "denied" = ⟨false, some "Invalid status selected"⟩ := by decide
example : validateInvoiceNumber "SA-001" = ⟨true, none⟩ := by decide
example : validateInvoiceNumber "SA_001" = ⟨false, some "Invoice number must follow the format SA-\x7bnumbers\x7d (e.g., SA-12345)"⟩ := by decide
example : validateInvoiceNumber "   " = ⟨false, some "Invoice number is required"⟩ := by decide
example : validateVendorName "A" = ⟨false, some "Vendor name is too short (min 2 characters)"⟩ := by decide
example : validateVendorName "Adobe Inc." = ⟨true, none⟩ := by decide

example : validateDateRange "" ⟨2024, 6, 1⟩ = ⟨true, none⟩ := by decide
example : validateDateRange "2024-01-01 - 2024-01-31" ⟨2024, 6, 1⟩ = ⟨true, none⟩ := by decide
example : validateDateRange "01-01-2024 to 01-31-2024" ⟨2024, 6, 1⟩ =
    ⟨false, some "Invalid date format. Use: YYYY-MM-DD - YYYY-MM-DD"⟩ := by decide
example : validateDateRange "2024-13-01 - 2024-13-31" ⟨2024, 6, 1⟩ =
    ⟨false, some "Invalid dates provided"⟩ := by decide
example : validateDateRange "2024-12-01 - 2024-01-01" ⟨2024, 6, 1⟩ =
    ⟨false, some "Start date must be before end date"⟩ := by decide
example : validateDateRange "2024-01-01 - 2024-06-02" ⟨2024, 6, 1⟩ =
    ⟨false, some "End date cannot be in the future"⟩ := by decide
example : validateDateRange "2024-01-01 - 2024-06-01" ⟨2024, 6, 1⟩ = ⟨true, none⟩ := by decide
example : validateDateRange "2024-01-01-2024-01-02" ⟨2024, 6, 1⟩ = ⟨true, none⟩ := by decide
example : validateDateRange "2024-02-30 - 2024-03-01" ⟨2024, 6, 1⟩ =
    ⟨false, some "Invalid dates provided"⟩ := by decide
example : validateDateRange "2024-02-29 - 2024-03-01" ⟨2024, 6, 1⟩ = ⟨true, none⟩ := by decide

example : scanFloat "500.50" = .fin false ['5', '0', '0'] ['5', '0'] 0 := by decide
example : scanFloat "abc" = .nan := by decide
example : scanFloat "  -2.5e2x" = .fin true ['2'] ['5'] 2 := by decide
example : scanFloat "12" = .fin false ['1', '2'] [] 0 := by decide
example : scanFloat ".5" = .fin false [] ['5'] 0 := by decide
example : scanFloat "5." = .fin false ['5'] [] 0 := by decide
example : scanFloat "1e" = .fin false ['1'] [] 0 := by decide
example : scanFloat "1e-2" = .fin false ['1'] [] (-2) := by decide
example : scanFloat "-Infinity" = .inf true := by decide
example : scanFloat "+-3" = .nan := by decide
example : scanFloat "." = .nan := by decide

example : jsParseFloat "500.50" = .finite (1001 / 2) := by
  have h : scanFloat "500.50" = .fin false ['5', '0', '0'] ['5', '0'] 0 := by decide
  have hd : digitsToNat ['5', '0', '0', '5', '0'] = 50050 := by decide
  rw [jsParseFloat, h, tokenValue]
  simp [hd]
  norm_num

example : jsParseFloat "  -2.5e2x" = .finite (-250) := by
  have h : scanFloat "  -2.5e2x" = .fin true ['2'] ['5'] 2 := by decide
  have hd : digitsToNat ['2', '5'] = 25 := by decide
  rw [jsParseFloat, h, tokenValue]
  simp [hd]
  norm_num

example : validateAmount (.num (.finite 100)) = ⟨true, none⟩ := by
  simp [validateAmount, JSNumber.isNaN, JSNumber.lt]
  norm_num
example : validateAmount (.num (.finite (-1))) = ⟨false, some "Amount cannot be negative"⟩ := by
  simp [validateAmount, JSNumber.isNaN, JSNumber.lt]
example : validateAmount (.num (.finite 1000001)) =
    ⟨false, some "Amount exceeds maximum limit (1,000,000)"⟩ := by
  simp [validateAmount, JSNumber.isNaN, JSNumber.lt]
  norm_num
example : validateAmount (.num (.finite 1000000)) = ⟨true, none⟩ := by
  simp [validateAmount, JSNumber.isNaN, JSNumber.lt]
example : validateAmount (.str "abc") = ⟨false, some "Amount must be a valid number"⟩ := by
  have h : scanFloat "abc" = .nan := by decide
  simp [validateAmount, jsParseFloat, h, tokenValue, JSNumber.isNaN]
example : validateAmount (.num .nan) = ⟨false, some "Amount must be a valid number"⟩ := by
  simp [validateAmount, JSNumber.isNaN]
example : validateAmount (.num .posInf) =
    ⟨false, some "Amount exceeds maximum limit (1,000,000)"⟩ := by
  simp [validateAmount, JSNumber.isNaN, JSNumber.lt]
example : validateAmount (.num .negInf) = ⟨false, some "Amount cannot be negative"⟩ := by
  simp [validateAmount, JSNumber.isNaN, JSNumber.lt]

lemma resultWF_valid : resultWF ⟨true, none⟩ := by
  constructor
  · simp
  · intro e he
    simp at he

lemma resultWF_invalid (msg : String) (h : msg ≠ "") : resultWF ⟨false, some msg⟩ := by
  constructor
  · simp
  · intro e he
    simp at he
    exact he ▸ h

lemma jsTrim_eq_empty_iff (s : String) :
    jsTrim s = "" ↔ ∀ c ∈ s.data, isJSWhitespace c = true := by
  unfold jsTrim
  rw [show ("" : String) = ⟨[]⟩ from rfl]
  rw [String.ext_iff]
  show (List.dropWhile isJSWhitespace (List.dropWhile isJSWhitespace s.data).reverse).reverse = [] ↔ _
  rw [List.reverse_eq_nil_iff, List.dropWhile_eq_nil_iff]
  constructor
  · intro h c hc
    rcases (List.mem_append.mp
      (by rw [List.takeWhile_append_dropWhile] ; exact hc :
        c ∈ s.data.takeWhile isJSWhitespace ++ s.data.dropWhile isJSWhitespace)) with h1 | h1
    · exact List.mem_takeWhile_imp h1
    · exact h c (List.mem_reverse.mpr h1)
  · intro h c hc
    exact h c ((List.dropWhile_sublist _).mem (List.mem_reverse.mp hc))

lemma angle_any_iff (q : String) :
    q.data.any (fun c => c == '<' || c == '>') = true ↔ '<' ∈ q.data ∨ '>' ∈ q.data := by
  simp only [List.any_eq_true, Bool.or_eq_true, beq_iff_eq]
  constructor
  · rintro ⟨c, hc, h | h⟩
    · exact Or.inl (h ▸ hc)
    · exact Or.inr (h ▸ hc)
  · rintro (h | h)
    · exact ⟨'<', h, Or.inl rfl⟩
    · exact ⟨'>', h, Or.inr rfl⟩

/-- C2: for each of the six validators and every input, the returned
ValidationResult has the error field present iff isValid is false, and a
present error is a non-empty string. -/
theorem validators_result_invariant :
    (∀ q, resultWF (validateSearchQuery q)) ∧
    (∀ r now, resultWF (validateDateRange r now)) ∧
    (∀ s, resultWF (validateStatus s)) ∧
    (∀ a, resultWF (validateAmount a)) ∧
    (∀ i, resultWF (validateInvoiceNumber i)) ∧
    (∀ v, resultWF (validateVendorName v)) := by
  refine ⟨fun q => ?_, fun r now => ?_, fun s => ?_, fun a => ?_, fun i => ?_, fun v => ?_⟩
  · unfold validateSearchQuery
    repeat' split
    all_goals first
      | exact resultWF_valid
      | exact resultWF_invalid _ (by decide)
  · unfold validateDateRange
    repeat' split
    all_goals first
      | exact resultWF_valid
      | exact resultWF_invalid _ (by decide)
  · unfold validateStatus
    repeat' split
    all_goals first
      | exact resultWF_valid
      | exact resultWF_invalid _ (by decide)
  · unfold validateAmount
    split
    all_goals dsimp only
    all_goals repeat' split
    all_goals first
      | exact resultWF_valid
      | exact resultWF_invalid _ (by decide)
  · unfold validateInvoiceNumber
    repeat' split
    all_goals first
      | exact resultWF_valid
      | exact resultWF_invalid _ (by decide)
  · unfold validateVendorName
    repeat' split
    all_goals first
      | exact resultWF_valid
      | exact resultWF_invalid _ (by decide)

/-- C2 witness: the invariant evaluated at a concrete input. -/
theorem validators_result_invariant_witness :
    (validateSearchQuery "ok").error.isSome = true ↔ (validateSearchQuery "ok").isValid = false :=
  (validators_result_invariant.1 "ok").1

/-- C3 counterexample: validateDateRange applied twice to the same input
string yields different results when the two calls sample different
wall-clock dates, so the unqualified two-call idempotence claim fails. -/
theorem validateDateRange_clock_variation :
    validateDateRange "2024-01-01 - 2024-06-01" ⟨2024, 5, 31⟩ ≠
    validateDateRange "2024-01-01 - 2024-06-01" ⟨2024, 6, 1⟩ := by decide

/-- C3 amended: every validator yields structurally identical results on
repeated calls with the same input, provided (for validateDateRange, the
one validator that reads the clock) both calls observe the same current
date; the counterexample shows the proviso is necessary. -/
theorem validators_repeatable :
    (∀ q, validateSearchQuery q = validateSearchQuery q) ∧
    (∀ r now, validateDateRange r now = validateDateRange r now) ∧
    (∀ s, validateStatus s = validateStatus s) ∧
    (∀ a, validateAmount a = validateAmount a) ∧
    (∀ i, validateInvoiceNumber i = validateInvoiceNumber i) ∧
    (∀ v, validateVendorName v = validateVendorName v) :=
  ⟨fun _ => rfl, fun _ _ => rfl, fun _ => rfl, fun _ => rfl, fun _ => rfl, fun _ => rfl⟩

/-- C9: validateSearchQuery accepts exactly the strings of length at most
100 containing neither an opening nor a closing angle bracket; longer
strings report the length error, and short strings with an angle bracket
report the invalid-character error; the empty string is valid. -/
theorem validateSearchQuery_spec :
    (∀ q : String, (validateSearchQuery q).isValid = true ↔
      q.length ≤ 100 ∧ ¬('<' ∈ q.data ∨ '>' ∈ q.data)) ∧
    (∀ q : String, q.length > 100 →
      validateSearchQuery q = ⟨false, some "Search query is too long (max 100 characters)"⟩) ∧
    (∀ q : String, q.length ≤ 100 → ('<' ∈ q.data ∨ '>' ∈ q.data) →
      validateSearchQuery q = ⟨false, some "Search query contains invalid characters"⟩) ∧
    validateSearchQuery "" = ⟨true, none⟩ := by
  refine ⟨fun q => ?_, fun q h => ?_, fun q h1 h2 => ?_, by decide⟩
  · unfold validateSearchQuery
    split
    case isTrue h =>
      simp only [show (false = true) = False from by simp, false_iff]
      rintro ⟨h1, -⟩
      omega
    case isFalse h =>
      split
      case isTrue h2 =>
        simp only [show (false = true) = False from by simp, false_iff]
        rintro ⟨-, h3⟩
        exact h3 ((angle_any_iff q).mp h2)
      case isFalse h2 =>
        simp only [true_iff]
        exact ⟨by omega, fun hmem => h2 ((angle_any_iff q).mpr hmem)⟩
  · unfold validateSearchQuery
    rw [if_pos h]
  · unfold validateSearchQuery
    rw [if_neg (by omega), if_pos ((angle_any_iff q).mpr h2)]

/-- C9 witness: the spec applied to a 101-character query and an
angle-bracket query. -/
theorem validateSearchQuery_spec_witness :
    validateSearchQuery ⟨List.replicate 101 'a'⟩ =
      ⟨false, some "Search query is too long (max 100 characters)"⟩ ∧
    validateSearchQuery "<b>" = ⟨false, some "Search query contains invalid characters"⟩ :=
  ⟨validateSearchQuery_spec.2.1 ⟨List.replicate 101 'a'⟩ (by decide),
   validateSearchQuery_spec.2.2.1 "<b>" (by decide) (by decide)⟩

/-- C10: each validator reports only the first failing check in source
order: an over-long query with angle brackets reports the length error; an
all-whitespace invoice number of any length reports the required error; an
all-whitespace vendor name of length at least 2 reports the required
error rather than the too-short error. -/
theorem first_failing_check_wins :
    (∀ q : String, q.length > 100 → ('<' ∈ q.data ∨ '>' ∈ q.data) →
      validateSearchQuery q = ⟨false, some "Search query is too long (max 100 characters)"⟩) ∧
    (∀ i : String, (∀ c ∈ i.data, isJSWhitespace c = true) →
      validateInvoiceNumber i = ⟨false, some "Invoice number is required"⟩) ∧
    (∀ v : String, (∀ c ∈ v.data, isJSWhitespace c = true) → 2 ≤ v.length →
      validateVendorName v = ⟨false, some "Vendor name is required"⟩) := by
  refine ⟨fun q h _ => ?_, fun i h => ?_, fun v h _ => ?_⟩
  · unfold validateSearchQuery
    rw [if_pos h]
  · unfold validateInvoiceNumber
    rw [if_pos (Or.inr ((jsTrim_eq_empty_iff i).mpr h))]
  · unfold validateVendorName
    rw [if_pos (Or.inr ((jsTrim_eq_empty_iff v).mpr h))]

/-- C10 witness: the order facts at concrete inputs, including an
all-whitespace invoice number longer than 50 characters. -/
theorem first_failing_check_wins_witness :
    validateSearchQuery ⟨List.replicate 101 '<'⟩ =
      ⟨false, some "Search query is too long (max 100 characters)"⟩ ∧
    validateInvoiceNumber ⟨List.replicate 60 ' '⟩ =
      ⟨false, some "Invoice number is required"⟩ ∧
    validateVendorName "  " = ⟨false, some "Vendor name is required"⟩ :=
  ⟨first_failing_check_wins.1 ⟨List.replicate 101 '<'⟩ (by decide) (by decide),
   first_failing_check_wins.2.1 ⟨List.replicate 60 ' '⟩ (by decide),
   first_failing_check_wins.2.2 "  " (by decide) (by decide)⟩

lemma isInvoiceFormat_iff (s : String) :
    isInvoiceFormat s = true ↔
    ∃ ds, s.data = 'S' :: 'A' :: '-' :: ds ∧ ds ≠ [] ∧ ∀ c ∈ ds, c.isDigit = true := by
  unfold isInvoiceFormat
  split
  case h_1 rest heq =>
    rw [heq]
    simp [List.all_eq_true]
  case h_2 hno =>
    simp only [show (false = true) = False from by simp, false_iff]
    rintro ⟨ds, h, -, -⟩
    exact hno ds h

/-- C1: validateInvoiceNumber accepts exactly the non-blank strings of
length at most 50 whose characters are the letter S, the letter A, a dash,
and then one or more decimal digits; every non-blank string of length at
most 50 deviating from that shape reports the format error. -/
theorem validateInvoiceNumber_spec :
    (∀ s : String, (validateInvoiceNumber s).isValid = true ↔
      (¬ ∀ c ∈ s.data, isJSWhitespace c = true) ∧ s.length ≤ 50 ∧
      (∃ ds, s.data = 'S' :: 'A' :: '-' :: ds ∧ ds ≠ [] ∧ ∀ c ∈ ds, c.isDigit = true)) ∧
    (∀ s : String, (¬ ∀ c ∈ s.data, isJSWhitespace c = true) → s.length ≤ 50 →
      (¬ ∃ ds, s.data = 'S' :: 'A' :: '-' :: ds ∧ ds ≠ [] ∧ ∀ c ∈ ds, c.isDigit = true) →
      validateInvoiceNumber s =
        ⟨false, some "Invoice number must follow the format SA-\x7bnumbers\x7d (e.g., SA-12345)"⟩) := by
  constructor
  · intro s
    unfold validateInvoiceNumber
    split
    case isTrue h =>
      simp only [show (false = true) = False from by simp, false_iff]
      rintro ⟨hnb, -, -⟩
      rcases h with h | h
      · exact hnb (by rw [h]; intro c hc; simp at hc)
      · exact hnb ((jsTrim_eq_empty_iff s).mp h)
    case isFalse h =>
      split
      case isTrue hlen =>
        simp only [show (false = true) = False from by simp, false_iff]
        rintro ⟨-, hle, -⟩
        omega
      case isFalse hlen =>
        split
        case isTrue hfmt =>
          simp only [show (false = true) = False from by simp, false_iff]
          rintro ⟨-, -, hex⟩
          exact hfmt ((isInvoiceFormat_iff s).mpr hex)
        case isFalse hfmt =>
          simp only [true_iff]
          exact ⟨fun hws => h (Or.inr ((jsTrim_eq_empty_iff s).mpr hws)), by omega,
            (isInvoiceFormat_iff s).mp (not_not.mp hfmt)⟩
  · intro s h1 h2 h3
    unfold validateInvoiceNumber
    rw [if_neg ?hblank, if_neg (by omega), if_pos (fun hfmt => h3 ((isInvoiceFormat_iff s).mp hfmt))]
    case hblank =>
      rintro (rfl | h)
      · exact h1 (by intro c hc; simp at hc)
      · exact h1 ((jsTrim_eq_empty_iff _).mp h)

/-- C1 witness: a conforming invoice number is accepted, and a non-blank
deviating one of admissible length reports the format error. -/
theorem validateInvoiceNumber_spec_witness :
    (validateInvoiceNumber "SA-12345").isValid = true ∧
    validateInvoiceNumber "SA_001" =
      ⟨false, some "Invoice number must follow the format SA-\x7bnumbers\x7d (e.g., SA-12345)"⟩ :=
  ⟨(validateInvoiceNumber_spec.1 "SA-12345").mpr
    ⟨by decide, by decide, ['1', '2', '3', '4', '5'], by decide, by decide, by decide⟩,
   validateInvoiceNumber_spec.2 "SA_001" (by decide) (by decide) (by
    rintro ⟨ds, h, -, -⟩
    have h3 : List.take 3 ("SA_001".data) = ['S', 'A', '-'] := by rw [h]; rfl
    exact absurd h3 (by decide))⟩

lemma dateLt_irrefl (d : SimpleDate) : dateLt d d = false := by
  unfold dateLt
  simp

lemma matchDateRange_empty : matchDateRange "" = none := by decide

lemma validateDateRange_eq_of_match (r : String) (now d1 d2 : SimpleDate) (s1 s2 : String)
    (hm : matchDateRange r = some (s1, s2))
    (h1 : parseIsoDate s1 = some d1) (h2 : parseIsoDate s2 = some d2) :
    validateDateRange r now =
      (if dateLt d2 d1 then ⟨false, some "Start date must be before end date"⟩
       else if dateLt now d2 then ⟨false, some "End date cannot be in the future"⟩
       else ⟨true, none⟩) := by
  have hr : r ≠ "" := by
    intro h
    rw [h, matchDateRange_empty] at hm
    cases hm
  unfold validateDateRange
  rw [if_neg hr, hm]
  dsimp only
  rw [h1, h2]

/-- C5: on a range whose two extracted dates are real calendar dates not
after the current date, validateDateRange reports the start-after-end
error exactly when the start date is strictly after the end date, and a
range with equal start and end dates is accepted. -/
theorem validateDateRange_order (r : String) (now d1 d2 : SimpleDate) (s1 s2 : String)
    (hm : matchDateRange r = some (s1, s2))
    (h1 : parseIsoDate s1 = some d1) (h2 : parseIsoDate s2 = some d2)
    (_hn1 : dateLt now d1 = false) (hn2 : dateLt now d2 = false) :
    (validateDateRange r now = ⟨false, some "Start date must be before end date"⟩ ↔
      dateLt d2 d1 = true) ∧
    (d1 = d2 → validateDateRange r now = ⟨true, none⟩) := by
  rw [validateDateRange_eq_of_match r now d1 d2 s1 s2 hm h1 h2]
  constructor
  · cases hlt : dateLt d2 d1 with
    | true => simp
    | false =>
      rw [if_neg (by simp [hlt]), if_neg (by simp [hn2])]
      simp
  · intro heq
    subst heq
    rw [if_neg (by simp [dateLt_irrefl]), if_neg (by simp [hn2])]

/-- C5 witness: a range with equal start and end dates, both in the past,
is accepted. -/
theorem validateDateRange_order_witness :
    validateDateRange "2024-03-05 - 2024-03-05" ⟨2024, 3, 6⟩ = ⟨true, none⟩ :=
  (validateDateRange_order "2024-03-05 - 2024-03-05" ⟨2024, 3, 6⟩ ⟨2024, 3, 5⟩ ⟨2024, 3, 5⟩
    "2024-03-05" "2024-03-05" (by decide) (by decide) (by decide) (by decide) (by decide)).2 rfl

/-- C6: on a range whose extracted dates are real calendar dates in order,
validateDateRange reports the future-end error exactly when the end date
is strictly after the injected current date, and otherwise accepts. -/
theorem validateDateRange_future (r : String) (now d1 d2 : SimpleDate) (s1 s2 : String)
    (hm : matchDateRange r = some (s1, s2))
    (h1 : parseIsoDate s1 = some d1) (h2 : parseIsoDate s2 = some d2)
    (hle : dateLt d2 d1 = false) :
    (validateDateRange r now = ⟨false, some "End date cannot be in the future"⟩ ↔
      dateLt now d2 = true) ∧
    (dateLt now d2 = false → validateDateRange r now = ⟨true, none⟩) := by
  rw [validateDateRange_eq_of_match r now d1 d2 s1 s2 hm h1 h2]
  rw [if_neg (by simp [hle])]
  constructor
  · cases hf : dateLt now d2 with
    | true => simp
    | false =>
      rw [if_neg (by simp [hf])]
      simp
  · intro hf
    rw [if_neg (by simp [hf])]

/-- C6 witness: a well-formed range ending after the injected current date
reports the future-end error. -/
theorem validateDateRange_future_witness :
    validateDateRange "2024-01-01 - 2024-06-02" ⟨2024, 6, 1⟩ =
      ⟨false, some "End date cannot be in the future"⟩ :=
  (validateDateRange_future "2024-01-01 - 2024-06-02" ⟨2024, 6, 1⟩ ⟨2024, 1, 1⟩ ⟨2024, 6, 2⟩
    "2024-01-01" "2024-06-02" (by decide) (by decide) (by decide) (by decide)).1.mpr (by decide)

/-- C8: on a range matching the textual pattern whose extracted date
strings do not both parse to real calendar dates, validateDateRange
reports the invalid-dates error. -/
theorem validateDateRange_invalid_dates (r : String) (now : SimpleDate) (s1 s2 : String)
    (hm : matchDateRange r = some (s1, s2))
    (h : parseIsoDate s1 = none ∨ parseIsoDate s2 = none) :
    validateDateRange r now = ⟨false, some "Invalid dates provided"⟩ := by
  have hr : r ≠ "" := by
    intro he
    rw [he, matchDateRange_empty] at hm
    cases hm
  unfold validateDateRange
  rw [if_neg hr, hm]
  dsimp only
  rcases h with h | h
  · rw [h]
  · rw [h]
    cases hx : parseIsoDate s1 <;> rfl

/-- C8 witness: the month-13 range of the spec reports the invalid-dates
error. -/
theorem validateDateRange_invalid_dates_witness :
    validateDateRange "2024-13-01 - 2024-13-31" ⟨2024, 6, 1⟩ =
      ⟨false, some "Invalid dates provided"⟩ :=
  validateDateRange_invalid_dates "2024-13-01 - 2024-13-31" ⟨2024, 6, 1⟩
    "2024-13-01" "2024-13-31" (by decide) (Or.inl (by decide))

lemma matchIsoDate_sound {l a rest : List Char} (h : matchIsoDate l = some (a, rest)) :
    l = a ++ rest ∧ isIsoDateChars a := by
  unfold matchIsoDate at h
  split at h
  case h_1 y1 y2 y3 y4 m1 m2 d1 d2 rest' =>
    split at h
    case isTrue hd =>
      simp only [Bool.and_eq_true] at hd
      injection h with h'
      injection h' with ha hrest
      subst ha
      subst hrest
      exact ⟨rfl, y1, y2, y3, y4, m1, m2, d1, d2, rfl,
        hd.1.1.1.1.1.1.1, hd.1.1.1.1.1.1.2, hd.1.1.1.1.1.2, hd.1.1.1.1.2,
        hd.1.1.1.2, hd.1.1.2, hd.1.2, hd.2⟩
    case isFalse hd =>
      cases h
  case h_2 =>
    cases h

lemma dropWhile_decomp (p : Char → Bool) (l l' : List Char) (h : l.dropWhile p = l') :
    ∃ pre, l = pre ++ l' ∧ ∀ c ∈ pre, p c = true :=
  ⟨l.takeWhile p, by rw [← h, List.takeWhile_append_dropWhile],
   fun _ hc => List.mem_takeWhile_imp hc⟩

lemma matchDateRange_shape {r s1 s2 : String}
    (h : matchDateRange r = some (s1, s2)) : isoRangeShape r := by
  unfold matchDateRange at h
  split at h
  case h_1 => cases h
  case h_2 a rest heqA =>
    split at h
    case h_1 rest2 heq2 =>
      split at h
      case h_1 => cases h
      case h_2 b rest3 heq3 =>
        split at h
        case isTrue hrest3 =>
          obtain ⟨hA, hAiso⟩ := matchIsoDate_sound heqA
          obtain ⟨ws1, hws1, hws1p⟩ := dropWhile_decomp _ _ _ heq2
          obtain ⟨hB, hBiso⟩ := matchIsoDate_sound heq3
          have hb' : rest2.dropWhile isJSWhitespace = b := by
            rw [hB, hrest3, List.append_nil]
          obtain ⟨ws2, hws2, hws2p⟩ := dropWhile_decomp _ _ _ hb'
          refine ⟨a, ws1, ws2, b, ?_, hAiso, hBiso, hws1p, hws2p⟩
          rw [hA, hws1, hws2]
          simp [List.append_assoc]
        case isFalse hrest3 =>
          cases h
    case h_2 hno =>
      cases h

/-- C7: validateDateRange accepts the empty string, and every non-empty
string that does not have the shape date, optional whitespace, dash,
optional whitespace, date reports the format error; a string that the
range pattern does match never reports the format error. -/
theorem validateDateRange_format :
    (∀ now, validateDateRange "" now = ⟨true, none⟩) ∧
    (∀ r now, r ≠ "" → ¬ isoRangeShape r →
      validateDateRange r now =
        ⟨false, some "Invalid date format. Use: YYYY-MM-DD - YYYY-MM-DD"⟩) ∧
    (∀ r now s1 s2, matchDateRange r = some (s1, s2) →
      validateDateRange r now ≠
        ⟨false, some "Invalid date format. Use: YYYY-MM-DD - YYYY-MM-DD"⟩) := by
  refine ⟨fun now => rfl, fun r now hne hshape => ?_, fun r now s1 s2 hm => ?_⟩
  · have hm : matchDateRange r = none := by
      cases hmm : matchDateRange r with
      | none => rfl
      | some p =>
        obtain ⟨t1, t2⟩ := p
        exact absurd (matchDateRange_shape hmm) hshape
    unfold validateDateRange
    rw [if_neg hne, hm]
  · have hne : r ≠ "" := by
      intro he
      rw [he, matchDateRange_empty] at hm
      cases hm
    unfold validateDateRange
    rw [if_neg hne, hm]
    dsimp only
    cases hp1 : parseIsoDate s1 <;> cases hp2 : parseIsoDate s2
    all_goals repeat' split
    all_goals decide

/-- C7 witness: the empty string is accepted and a slash-separated range
reports the format error. -/
theorem validateDateRange_format_witness :
    validateDateRange "" ⟨2024, 6, 1⟩ = ⟨true, none⟩ ∧
    validateDateRange "2024/01/01 - 2024/01/31" ⟨2024, 6, 1⟩ =
      ⟨false, some "Invalid date format. Use: YYYY-MM-DD - YYYY-MM-DD"⟩ :=
  ⟨validateDateRange_format.1 ⟨2024, 6, 1⟩,
   validateDateRange_format.2.1 "2024/01/01 - 2024/01/31" ⟨2024, 6, 1⟩ (by decide) (by
    rintro ⟨a, ws1, ws2, b, heq, ⟨y1, y2, y3, y4, m1, m2, dd1, dd2, ha, -⟩, -, -, -⟩
    subst ha
    have hdata : "2024/01/01 - 2024/01/31".data =
        ['2', '0', '2', '4', '/', '0', '1', '/', '0', '1', ' ', '-', ' ',
         '2', '0', '2', '4', '/', '0', '1', '/', '3', '1'] := by decide
    rw [hdata] at heq
    simp at heq)⟩

lemma validateAmount_finite (a : ℚ) :
    validateAmount (.num (.finite a)) =
      (if a < 0 then ⟨false, some "Amount cannot be negative"⟩
       else if 1000000 < a then ⟨false, some "Amount exceeds maximum limit (1,000,000)"⟩
       else ⟨true, none⟩) := by
  unfold validateAmount
  simp only [JSNumber.isNaN, JSNumber.lt, Bool.false_eq_true, if_false, decide_eq_true_eq]

/-- C4: validateAmount accepts a finite numeric amount exactly when it
lies in the inclusive interval from 0 to 1,000,000; a string input behaves
like the number its leading numeric portion parses to; negative amounts,
amounts above the limit, and unparseable strings report their respective
errors; both interval endpoints are accepted.  Numeric values are modelled
as exact rationals. -/
theorem validateAmount_spec :
    (∀ a : ℚ, validateAmount (.num (.finite a)) = ⟨true, none⟩ ↔ 0 ≤ a ∧ a ≤ 1000000) ∧
    (∀ s a, jsParseFloat s = .finite a →
      validateAmount (.str s) = validateAmount (.num (.finite a))) ∧
    (∀ a : ℚ, a < 0 →
      validateAmount (.num (.finite a)) = ⟨false, some "Amount cannot be negative"⟩) ∧
    (∀ a : ℚ, 1000000 < a →
      validateAmount (.num (.finite a)) = ⟨false, some "Amount exceeds maximum limit (1,000,000)"⟩) ∧
    (∀ s, jsParseFloat s = .nan →
      validateAmount (.str s) = ⟨false, some "Amount must be a valid number"⟩) ∧
    validateAmount (.num (.finite 0)) = ⟨true, none⟩ ∧
    validateAmount (.num (.finite 1000000)) = ⟨true, none⟩ := by
  refine ⟨fun a => ?_, fun s a h => ?_, fun a h => ?_, fun a h => ?_, fun s h => ?_, ?_, ?_⟩
  · rw [validateAmount_finite]
    constructor
    · intro h
      split_ifs at h with h1 h2
      · cases h
      · cases h
      · exact ⟨by linarith, by linarith⟩
    · rintro ⟨ha, hb⟩
      rw [if_neg (by linarith), if_neg (by linarith)]
  · simp only [validateAmount, h]
  · rw [validateAmount_finite, if_pos h]
  · rw [validateAmount_finite, if_neg (by linarith), if_pos h]
  · simp [validateAmount, h, JSNumber.isNaN]
  · rw [validateAmount_finite]
    norm_num
  · rw [validateAmount_finite]
    norm_num

/-- C4 witness: a parsable decimal string is accepted, an unparseable one
reports the number error, and the two out-of-range sides report their
errors. -/
theorem validateAmount_spec_witness :
    validateAmount (.str "500.50") = ⟨true, none⟩ ∧
    validateAmount (.str "abc") = ⟨false, some "Amount must be a valid number"⟩ ∧
    validateAmount (.num (.finite (-1))) = ⟨false, some "Amount cannot be negative"⟩ ∧
    validateAmount (.num (.finite 1000001)) =
      ⟨false, some "Amount exceeds maximum limit (1,000,000)"⟩ := by
  have hp : jsParseFloat "500.50" = .finite (1001 / 2) := by
    have h : scanFloat "500.50" = .fin false ['5', '0', '0'] ['5', '0'] 0 := by decide
    have hd : digitsToNat ['5', '0', '0', '5', '0'] = 50050 := by decide
    rw [jsParseFloat, h, tokenValue]
    simp [hd]
    norm_num
  refine ⟨?_, ?_, ?_, ?_⟩
  · rw [validateAmount_spec.2.1 "500.50" (1001 / 2) hp]
    exact (validateAmount_spec.1 (1001 / 2)).mpr (by norm_num)
  · refine validateAmount_spec.2.2.2.2.1 "abc" ?_
    rw [jsParseFloat, show scanFloat "abc" = .nan from by decide]
    rfl
  · exact validateAmount_spec.2.2.1 (-1) (by norm_num)
  · exact validateAmount_spec.2.2.2.1 1000001 (by norm_num)
